import Mathlib

/-!
Verification of the Steam Telegram bot pipeline (src/steam_bot.py).

The Python module is shallowly embedded: JSON values are an inductive type,
Python exceptions are an explicit error type threaded through `Except`, and
each HTTP request made by the program is answered by an oracle value of type
`HttpResult` supplied through an environment record.  Every helper function of
the module (`get_steam_app_id`, `get_steam_game_details`,
`get_steam_player_rating`, `get_rating_emoji`, `get_game_genres`,
`analyze_players_with_llm`, `format_price`, `get_itad_deal`) and the message
handler `handle_steam_link` is translated statement by statement.

Note on string literals: the repository file is stored with mojibake emoji
(each emoji byte sequence was mis-decoded once and re-encoded), so the actual
Unicode code points appearing in the Python string literals are sequences such
as U+F8FF U+00FC U+00FC U+00A2.  The embedding reproduces those exact code
points with escape sequences.
-/

/-- Python/JSON values as produced by `response.json()`.  JSON numbers are
modelled as integers (no fractional literal appears in any theorem below). -/
inductive Json where
  | null
  | bool (b : Bool)
  | num (n : Int)
  | str (s : String)
  | arr (xs : List Json)
  | obj (kvs : List (String × Json))

/-- Python exceptions that the module can raise or catch. -/
inductive PyExc where
  | requestException
  | keyError (k : String)
  | indexError
  | typeError
  | attributeError
  deriving Repr, DecidableEq

/-- Oracle for one HTTP request: either the transport layer fails
(`requests` raises a `RequestException`), or a response arrives with a status
code and a body; `none` as body means the body is not parseable JSON. -/
inductive HttpResult where
  | transportError
  | response (status : Nat) (body : Option Json)

/-- Python truthiness of a JSON value. -/
def truthy : Json → Bool
  | .null => false
  | .bool b => b
  | .num n => n != 0
  | .str s => !s.isEmpty
  | .arr xs => !xs.isEmpty
  | .obj kvs => !kvs.isEmpty

/-- Key lookup in a parsed JSON object.  `json.loads` keeps the last binding
of a duplicated key, hence the fold. -/
def jsonLookup (kvs : List (String × Json)) (k : String) : Option Json :=
  kvs.foldl (fun acc kv => if kv.1 == k then some kv.2 else acc) none

/-- Python `d[k]`: `KeyError` on a missing key, `TypeError` when the value is
not a dict (indexing a list or string with a string key). -/
def pyGetItem (j : Json) (k : String) : Except PyExc Json :=
  match j with
  | .obj kvs =>
    match jsonLookup kvs k with
    | some v => .ok v
    | none => .error (.keyError k)
  | _ => .error .typeError

/-- Python `d.get(k, dflt)`: `AttributeError` when the receiver is not a
dict. -/
def pyDictGetD (j : Json) (k : String) (dflt : Json) : Except PyExc Json :=
  match j with
  | .obj kvs =>
    match jsonLookup kvs k with
    | some v => .ok v
    | none => .ok dflt
  | _ => .error .attributeError

/-- Python `d.get(k)` (default `None`). -/
def pyDictGet (j : Json) (k : String) : Except PyExc Json :=
  pyDictGetD j k .null

/-- Python iteration `for x in j`: lists yield elements, strings yield
one-character strings, dicts yield their keys, other values raise
`TypeError`. -/
def pyIter : Json → Except PyExc (List Json)
  | .arr xs => .ok xs
  | .str s => .ok (s.data.map (fun c => .str (String.mk [c])))
  | .obj kvs => .ok (kvs.map (fun kv => .str kv.1))
  | _ => .error .typeError

/-- Sequence a fallible function over a list (the effect of a Python list
comprehension whose element expression may raise). -/
def exList (f : Json → Except PyExc Json) : List Json → Except PyExc (List Json)
  | [] => .ok []
  | x :: xs => do
    let y ← f x
    let ys ← exList f xs
    pure (y :: ys)

/-- Same, for comprehensions producing optional strings. -/
def exListOpt (f : Json → Except PyExc (Option String)) :
    List Json → Except PyExc (List (Option String))
  | [] => .ok []
  | x :: xs => do
    let y ← f x
    let ys ← exListOpt f xs
    pure (y :: ys)

/-- Same, for comprehensions producing strings. -/
def exListStr (f : Json → Except PyExc String) :
    List Json → Except PyExc (List String)
  | [] => .ok []
  | x :: xs => do
    let y ← f x
    let ys ← exListStr f xs
    pure (y :: ys)

/-- Python `len`. -/
def pyLen : Json → Except PyExc Nat
  | .arr xs => .ok xs.length
  | .str s => .ok s.length
  | .obj kvs => .ok kvs.length
  | _ => .error .typeError

/-- Python `j[i]` for a natural index. -/
def pyIndex (j : Json) (i : Nat) : Except PyExc Json :=
  match j with
  | .arr xs =>
    match xs.get? i with
    | some v => .ok v
    | none => .error .indexError
  | .str s =>
    match s.data.get? i with
    | some c => .ok (.str (String.mk [c]))
    | none => .error .indexError
  | .obj _ => .error (.keyError (toString i))
  | _ => .error .typeError

/-- The first `n` code points of a string, as Python slicing `s[:n]` does. -/
def pyTake (n : Nat) (s : String) : String :=
  String.mk (s.data.take n)

/-- Python slicing `j[:n]`: defined for strings and lists, `TypeError`
otherwise. -/
def pySlice (j : Json) (n : Nat) : Except PyExc Json :=
  match j with
  | .str s => .ok (.str (pyTake n s))
  | .arr xs => .ok (.arr (xs.take n))
  | _ => .error .typeError

mutual
/-- Python `repr` of a JSON value (used when a value is interpolated inside a
list in an f-string). -/
def pyReprJ : Json → String
  | .null => "None"
  | .bool b => if b then "True" else "False"
  | .num n => toString n
  | .str s => "\x27" ++ s ++ "\x27"
  | .arr xs => "[" ++ pyReprList xs ++ "]"
  | .obj kvs => "\x7b" ++ pyReprObj kvs ++ "\x7d"

def pyReprList : List Json → String
  | [] => ""
  | [x] => pyReprJ x
  | x :: xs => pyReprJ x ++ ", " ++ pyReprList xs

def pyReprObj : List (String × Json) → String
  | [] => ""
  | [kv] => "\x27" ++ kv.1 ++ "\x27: " ++ pyReprJ kv.2
  | kv :: kvs => "\x27" ++ kv.1 ++ "\x27: " ++ pyReprJ kv.2 ++ ", " ++ pyReprObj kvs
end

/-- Python `str` of a JSON value (f-string interpolation of a single value). -/
def pyStrOf : Json → String
  | .str s => s
  | j => pyReprJ j

/-- Python `x == 1` where `x` came from JSON (`True == 1` holds in Python). -/
def pyEqOne : Json → Bool
  | .num 1 => true
  | .bool true => true
  | _ => false

/-- Shared shape of every `requests` call in the module:
`response = requests.get(url, timeout=10); response.raise_for_status();
data = response.json()`.  A transport failure, a status of 400 or above and a
non-JSON body all raise `requests.exceptions.RequestException` (for the JSON
body this is `requests.exceptions.JSONDecodeError`, a `RequestException`
subclass in the `requests` versions this program runs on). -/
def fetchJson : HttpResult → Except PyExc Json
  | .transportError => .error .requestException
  | .response status body =>
    if status ≥ 400 then .error .requestException
    else
      match body with
      | none => .error .requestException
      | some j => .ok j

/-- `a` is a leading segment of `b` (decidable list comparison). -/
def leadsWith : List Char → List Char → Bool
  | [], _ => true
  | _ :: _, [] => false
  | a :: as, b :: bs => a == b && leadsWith as bs

/-- Python `needle in hay` for strings, on the underlying character lists. -/
def isSub (needle hay : List Char) : Bool :=
  match hay with
  | [] => needle.isEmpty
  | _ :: t => leadsWith needle hay || isSub needle t

/-- `needle in hay` on `String`. -/
def strIn (needle hay : String) : Bool :=
  isSub needle.data hay.data

/-- Python `s.lower()` (character-wise, computable by the kernel). -/
def pyLower (s : String) : String :=
  String.mk (s.data.map Char.toLower)

/-- The Unicode code-point ranges of general category Nd (decimal digits),
as tabulated by the CPython runtime this program runs on: this is exactly
what the regex class `\d` matches in a `str` pattern. -/
def ndRanges : List (Nat × Nat) :=
  [(0x30, 0x39), (0x660, 0x669), (0x6f0, 0x6f9), (0x7c0, 0x7c9),
   (0x966, 0x96f), (0x9e6, 0x9ef), (0xa66, 0xa6f), (0xae6, 0xaef),
   (0xb66, 0xb6f), (0xbe6, 0xbef), (0xc66, 0xc6f), (0xce6, 0xcef),
   (0xd66, 0xd6f), (0xde6, 0xdef), (0xe50, 0xe59), (0xed0, 0xed9),
   (0xf20, 0xf29), (0x1040, 0x1049), (0x1090, 0x1099), (0x17e0, 0x17e9),
   (0x1810, 0x1819), (0x1946, 0x194f), (0x19d0, 0x19d9), (0x1a80, 0x1a89),
   (0x1a90, 0x1a99), (0x1b50, 0x1b59), (0x1bb0, 0x1bb9), (0x1c40, 0x1c49),
   (0x1c50, 0x1c59), (0xa620, 0xa629), (0xa8d0, 0xa8d9), (0xa900, 0xa909),
   (0xa9d0, 0xa9d9), (0xa9f0, 0xa9f9), (0xaa50, 0xaa59), (0xabf0, 0xabf9),
   (0xff10, 0xff19), (0x104a0, 0x104a9), (0x10d30, 0x10d39),
   (0x11066, 0x1106f), (0x110f0, 0x110f9), (0x11136, 0x1113f),
   (0x111d0, 0x111d9), (0x112f0, 0x112f9), (0x11450, 0x11459),
   (0x114d0, 0x114d9), (0x11650, 0x11659), (0x116c0, 0x116c9),
   (0x11730, 0x11739), (0x118e0, 0x118e9), (0x11950, 0x11959),
   (0x11c50, 0x11c59), (0x11d50, 0x11d59), (0x11da0, 0x11da9),
   (0x16a60, 0x16a69), (0x16ac0, 0x16ac9), (0x16b50, 0x16b59),
   (0x1d7ce, 0x1d7ff), (0x1e140, 0x1e149), (0x1e2f0, 0x1e2f9),
   (0x1e950, 0x1e959), (0x1fbf0, 0x1fbf9)]

/-- Python regex `\d` on a `str`: any Unicode decimal digit (category
Nd). -/
def pyIsDigit (c : Char) : Bool :=
  ndRanges.any (fun p => decide (p.1 ≤ c.toNat) && decide (c.toNat ≤ p.2))

/-- Python whitespace (the set `str.isspace` accepts, which is what
`str.strip()` removes), as tabulated by the CPython runtime. -/
def pyIsSpace (c : Char) : Bool :=
  [(0x9, 0xd), (0x1c, 0x20), (0x85, 0x85), (0xa0, 0xa0), (0x1680, 0x1680),
   (0x2000, 0x200a), (0x2028, 0x2029), (0x202f, 0x202f), (0x205f, 0x205f),
   (0x3000, 0x3000)].any
    (fun p => decide (p.1 ≤ c.toNat) && decide (c.toNat ≤ p.2))

/-- Python `s.strip()`: drop leading and trailing Unicode whitespace. -/
def pyStrip (s : String) : String :=
  String.mk
    (((s.data.dropWhile pyIsSpace).reverse.dropWhile pyIsSpace).reverse)

/- ## Identifier Extractor (`get_steam_app_id`, lines 35-37) -/

/-- The literal characters of the regex pattern `/app/`. -/
def appPat : List Char := ['/', 'a', 'p', 'p', '/']

/-- The regex `/app/(\d+)` matches at the head of `l`: `l` starts with
`/app/` followed by at least one Unicode decimal digit. -/
def appAt (l : List Char) : Bool :=
  leadsWith appPat l && !((l.drop 5).takeWhile pyIsDigit).isEmpty

/-- `re.search` semantics for the pattern `/app/(\d+)`: scan left to right
for the first position where the pattern matches and return the maximal digit
run captured by the group. -/
def searchAppId : List Char → Option (List Char)
  | [] => none
  | c :: cs =>
    if appAt (c :: cs) then some ((cs.drop 4).takeWhile pyIsDigit)
    else searchAppId cs

/-- `get_steam_app_id` (source lines 35-37): `re.search(r'/app/(\d+)', url)`
returning `match.group(1)` when a match exists. -/
def get_steam_app_id (url : String) : Option String :=
  (searchAppId url.data).map String.mk

/- ## Storefront Client (`get_steam_game_details` lines 39-49,
`get_steam_player_rating` lines 51-61) -/

/-- `get_steam_game_details` (lines 39-49).  The `try` block covers the
request, `raise_for_status`, JSON parsing and the success check; only
`requests.exceptions.RequestException` is caught (and turned into `None`).
The indexing `data[app_id]["success"]` and `data[app_id]["data"]` can raise
`KeyError`/`TypeError`, which the function does not catch. -/
def get_steam_game_details (app_id : String) (r : HttpResult) :
    Except PyExc (Option Json) :=
  let body : Except PyExc (Option Json) := do
    let data ← fetchJson r
    if truthy data then
      let entry ← pyGetItem data app_id
      let succ ← pyGetItem entry "success"
      if truthy succ then
        let d ← pyGetItem entry "data"
        pure (some d)
      else pure none
    else pure none
  match body with
  | .error .requestException => .ok none
  | other => other

/-- `get_steam_player_rating` (lines 51-61).  Returns
`data.get("query_summary")` when `data` is truthy and
`data.get("success") == 1`; a JSON `null` (Python `None`) result is the same
as returning `None`. -/
def get_steam_player_rating (r : HttpResult) : Except PyExc (Option Json) :=
  let body : Except PyExc (Option Json) := do
    let data ← fetchJson r
    if truthy data then
      let succ ← pyDictGet data "success"
      if pyEqOne succ then
        let qs ← pyDictGet data "query_summary"
        match qs with
        | .null => pure none
        | v => pure (some v)
      else pure none
    else pure none
  match body with
  | .error .requestException => .ok none
  | other => other

/- ## Rating emoji (`get_rating_emoji`, lines 63-81) -/

def emojiGreen : String := "üü¢"
def emojiYellow : String := "üü°"
def emojiRed : String := "üî¥"
def emojiWhite : String := "‚ö™"

def positiveWords : List String :=
  ["overwhelmingly positive", "very positive", "mostly positive", "positive"]

def mixedWords : List String := ["mixed", "mostly negative"]

def negativeWords : List String :=
  ["overwhelmingly negative", "very negative", "negative"]

/-- `get_rating_emoji` (lines 63-81). -/
def get_rating_emoji (rating_text : String) : String :=
  let rating_lower := pyLower rating_text
  if positiveWords.any (fun w => strIn w rating_lower) then emojiGreen
  else if mixedWords.any (fun w => strIn w rating_lower) then emojiYellow
  else if negativeWords.any (fun w => strIn w rating_lower) then emojiRed
  else emojiWhite

/- ## Genres (`get_game_genres`, lines 83-101) -/

def genreTerms : List String :=
  ["action", "adventure", "strategy", "rpg", "simulation", "sports", "racing"]

/-- `get_game_genres` (lines 83-101).  `genre['description']` raises on a
missing key; `', '.join` raises `TypeError` on a non-string element;
`.lower()` on a non-string raises `AttributeError`. -/
def get_game_genres (details : Json) : Except PyExc String := do
  let genres ← pyDictGetD details "genres" (.arr [])
  if truthy genres then
    let g3 ← pySlice genres 3
    let items ← pyIter g3
    let genre_names ← exListStr (fun g => do
      let d ← pyGetItem g "description"
      match d with
      | .str s => pure s
      | _ => (.error .typeError : Except PyExc String)) items
    pure (String.intercalate ", " genre_names)
  else
    let categories ← pyDictGetD details "categories" (.arr [])
    if truthy categories then
      let items ← pyIter categories
      let picked ← exListOpt (fun c => do
        let d ← pyGetItem c "description"
        match d with
        | .str s =>
          if genreTerms.any (fun t => strIn t (pyLower s)) then
            pure (some s)
          else pure (none : Option String)
        | _ => (.error .attributeError : Except PyExc (Option String))) items
      let genre_categories := picked.filterMap id
      if !genre_categories.isEmpty then
        pure (String.intercalate ", " (genre_categories.take 2))
      else pure "Genre not available"
    else pure "Genre not available"

/- ## Price formatting (`format_price`, lines 155-160) -/

/-- `format_price` (lines 155-160).  `details["price_overview"]
["final_formatted"]` raises `KeyError` when `final_formatted` is absent. -/
def format_price (details : Json) : Except PyExc Json := do
  let isFree ← pyDictGetD details "is_free" (.bool false)
  if truthy isFree then pure (.str "Free")
  else
    match details with
    | .obj kvs =>
      match jsonLookup kvs "price_overview" with
      | some po => pyGetItem po "final_formatted"
      | none => pure (.str "Price not available")
    | _ => pure (.str "Price not available")

/- ## Insight Extractor (`analyze_players_with_llm`, lines 103-153) -/

/-- Opening segment of the prompt f-string, up to the `game_name`
placeholder. -/
def promptHead : String :=
  "\n    Analyze this game data and find the MAXIMUM number of players who can play together simultaneously.\n\n    Game: "

def promptSegCategories : String := "\n    Categories: "

def promptSegDescription : String := "\n    Description: "

def promptSegShortDescription : String := "\n    Short Description: "

/-- Tail of the prompt f-string after the last placeholder, split around the
total-player normalization instruction
`- "play with X friends" (add 1 for the host)` so that the instruction is a
named constant.  The example lines contain the mojibake arrow
U+201A U+00DC U+00ED that the repository file stores in place of the original
arrow character. -/
def promptTailA : String :=
  "\n\n    Look for phrases like:\n    - \"up to X players\"\n    "

def normInstr : String :=
  "- \"play with X friends\" (add 1 for the host)"

def promptTailB : String :=
  "\n    - \"X-player co-op\"\n    - \"supports X players\"\n    - \"multiplayer for X\"\n\n    Return ONLY ONE of these formats:\n    - If you find a specific number: \"Up to X players\" (where X is the maximum)\n    - If multiplayer but no specific number: \"Multiplayer\"\n    - If only single-player: \"Single-player\"\n\n    Examples:\n    - \"play with up to 3 friends\" ‚Üí \"Up to 4 players\"\n    - \"4-player co-op\" ‚Üí \"Up to 4 players\" \n    - \"supports up to 16 players\" ‚Üí \"Up to 16 players\"\n    - \"online multiplayer\" with no number ‚Üí \"Multiplayer\"\n    - no multiplayer mentioned ‚Üí \"Single-player\"\n\n    Return ONLY the result, no explanation.\n    "

/-- The prompt text as a function of the four interpolated fragments (the
description fragment is already sliced to 500 code points by the caller). -/
def promptText (game_name categories description short_description : String) :
    String :=
  promptHead ++ game_name ++ promptSegCategories ++ categories ++
    promptSegDescription ++ description ++ promptSegShortDescription ++
    short_description ++ promptTailA ++ normInstr ++ promptTailB

/-- The list comprehension
`[cat['description'] for cat in details.get('categories', [])]`
(line 106). -/
def catDescs (details : Json) : Except PyExc (List Json) := do
  let cats ← pyDictGetD details "categories" (.arr [])
  let items ← pyIter cats
  exList (fun c => pyGetItem c "description") items

/-- Construction of the prompt string (lines 105-138): the field reads, the
comprehension and the f-string interpolation, all of which happen before the
`try` block and can raise. -/
def promptOf (details : Json) : Except PyExc String := do
  let game_name ← pyDictGetD details "name" (.str "Unknown Game")
  let categories ← catDescs details
  let description ← pyDictGetD details "detailed_description" (.str "")
  let short_description ← pyDictGetD details "short_description" (.str "")
  let dsl ← pySlice description 500
  pure (promptText (pyStrOf game_name)
    ("[" ++ pyReprList categories ++ "]") (pyStrOf dsl)
    (pyStrOf short_description))

/-- Which network requests the pipeline issues, with the request data that
the respective theorem inspects. -/
inductive NetCall where
  | steamDetails (app_id : String)
  | steamReviews (app_id : String)
  | itadLookupApp (app_id : String)
  | itadLookupTitle (title : String)
  | itadPrices (payload : List Json)
  | llmCompletion

/-- `analyze_players_with_llm` (lines 103-153).  `llm` is the oracle for the
completion call: `none` when the call raises (any `Exception` is caught and
turned into `None`), `some content` for a returned message, to which the
code applies `.strip()`.  Prompt construction happens before the `try` block,
so its exceptions escape and no completion request is issued. -/
def analyze_players_with_llm (details : Json) (llm : Option String) :
    List NetCall × Except PyExc (Option String) :=
  match promptOf details with
  | .error e => ([], .error e)
  | .ok _prompt => ([.llmCompletion], .ok (llm.map pyStrip))

/- ## Deal Resolver (`get_itad_deal`, lines 162-220) -/

/-- A `DealQuote`: the dict built on lines 210-215 from the first deal
entry. -/
structure Deal where
  price : Json
  store : Json
  cut : Json
  url : Json

/-- Oracles for the three ITAD requests: the app-id lookup (line 170), the
title lookup (line 183) and the POST to the prices endpoint (line 202).  The
responses are fixed by the environment; the resolved result depends on them
and on whether the game name handed to the title fallback is a string (the
query strings otherwise appear only in URLs). -/
structure ItadEnv where
  lookupAppId : HttpResult
  lookupTitle : HttpResult
  prices : HttpResult

/-- Body shared by the two lookup stages (lines 170-175 and 183-188):
fetch JSON, and when `lookup_data.get("found")` is truthy return
`lookup_data["game"]["id"]` (`some id` means `game_id` was assigned). -/
def rawLookup (r : HttpResult) : Except PyExc (Option Json) := do
  let lookup_data ← fetchJson r
  let f ← pyDictGet lookup_data "found"
  if truthy f then
    let g ← pyGetItem lookup_data "game"
    let i ← pyGetItem g "id"
    pure (some i)
  else pure none

/-- The exceptions caught by the price step (line 216):
`requests.exceptions.RequestException, IndexError, KeyError`. -/
def itadCaught : PyExc → Bool
  | .requestException => true
  | .indexError => true
  | .keyError _ => true
  | _ => false

/-- Body of the price step `try` block (lines 195-215). -/
def priceBody (r : HttpResult) : Except PyExc (Option Deal) := do
  let price_data ← fetchJson r
  match price_data with
  | .arr (game_data :: _) => do
    let dealsProbe ← pyDictGet game_data "deals"
    if truthy dealsProbe then
      let deals ← pyGetItem game_data "deals"
      let n ← pyLen deals
      if n > 0 then
        let best_deal ← pyIndex deals 0
        let p ← pyGetItem best_deal "price"
        let amount ← pyGetItem p "amount"
        let shop ← pyGetItem best_deal "shop"
        let sname ← pyGetItem shop "name"
        let cut ← pyGetItem best_deal "cut"
        let url ← pyDictGetD best_deal "url" (.str "")
        pure (some ⟨amount, sname, cut, url⟩)
      else pure none
    else pure none
  | _ => pure none

/-- Result component of `get_itad_deal` (lines 162-220).  Step 1 catches only
`RequestException` (leaving `game_id` unassigned).  Step 2 first evaluates
`requests.utils.quote(game_name)` inside its `try` block, which raises an
uncaught `TypeError` when the name taken from the details JSON is not a
string (the clause catches only `RequestException`); for a string name it
catches `RequestException` and then returns `None` for the whole call.  The
price step catches `RequestException`, `IndexError` and `KeyError` and falls
through to the final `return None`.  The ITAD responses are fixed by `env`,
so the result depends only on them and on whether `game_name` is a
string. -/
def itad_result (env : ItadEnv) (game_name : Json) :
    Except PyExc (Option Deal) :=
  let step1 : Except PyExc Json :=
    match rawLookup env.lookupAppId with
    | .ok (some v) => .ok v
    | .ok none => .ok .null
    | .error .requestException => .ok .null
    | .error e => .error e
  match step1 with
  | .error e => .error e
  | .ok gid1 =>
    let afterFallback : Except PyExc (Option Json) :=
      if truthy gid1 then .ok (some gid1)
      else
        match game_name with
        | .str _ =>
          match rawLookup env.lookupTitle with
          | .ok (some v) => .ok (some v)
          | .ok none => .ok (some gid1)
          | .error .requestException => .ok none
          | .error e => .error e
        | _ => .error .typeError
    match afterFallback with
    | .error e => .error e
    | .ok none => .ok none
    | .ok (some game_id) =>
      if truthy game_id then
        match priceBody env.prices with
        | .ok r => .ok r
        | .error e => if itadCaught e then .ok none else .error e
      else .ok none

/-- Trace component of `get_itad_deal`: which ITAD requests are issued, in
order, before the function returns or an exception escapes.  Mirrors the
control flow of `itad_result`; the title request records the title string
(percent-encoding by `requests.utils.quote` is not modelled), and on a
non-string name the `TypeError` from `quote` fires before any title request
is issued. -/
def itad_trace (env : ItadEnv) (app_id : String) (game_name : Json) :
    List NetCall :=
  let t1 : List NetCall := [.itadLookupApp app_id]
  let step1 : Except PyExc Json :=
    match rawLookup env.lookupAppId with
    | .ok (some v) => .ok v
    | .ok none => .ok .null
    | .error .requestException => .ok .null
    | .error e => .error e
  match step1 with
  | .error _ => t1
  | .ok gid1 =>
    if truthy gid1 then t1 ++ [.itadPrices [gid1]]
    else
      match game_name with
      | .str s =>
        let t2 := t1 ++ [.itadLookupTitle s]
        match rawLookup env.lookupTitle with
        | .ok (some v) =>
          if truthy v then t2 ++ [.itadPrices [v]] else t2
        | .ok none => if truthy gid1 then t2 ++ [.itadPrices [gid1]] else t2
        | .error _ => t2
      | _ => t1

/-- Python `f"{x:.2f}"`: fixed-point rendering of a number (JSON numbers are
modelled as integers, so two zero decimals are appended); any non-numeric
value raises. -/
def pyFormatF2 : Json → Except PyExc String
  | .num n => .ok (toString n ++ ".00")
  | .bool b => .ok (if b then "1.00" else "0.00")
  | _ => .error .typeError

/-- The reply notice sent when the details fetch fails (line 233). -/
def detailsNotice : String := "Sorry, I couldn\x27t fetch details for that game."

/-- The reply notice sent when the player analysis fails (line 246). -/
def llmNotice : String :=
  "Sorry, the player analysis AI is having trouble right now."

/-- `reply_parts` construction (lines 253-273): the unconditional six parts
followed, when a deal is present, by the deal line.  The emoji prefixes are
the exact (mojibake) code points stored in the repository file. -/
def compose_parts (game_name rating_emoji rating_text game_genre
    player_analysis steam_price app_id : String) (itad_deal : Option Deal) :
    Except PyExc (List String) :=
  let steam_url := "https://store.steampowered.com/app/" ++ app_id ++ "/"
  let base : List String :=
    ["\n",
     "<b>" ++ game_name ++ "</b>",
     rating_emoji ++ " <i>" ++ rating_text ++ "</i>",
     "üè∑Ô∏è " ++ game_genre ++ "\n",
     "üë• <b>" ++ player_analysis ++ "</b>\n",
     "üí∞ <b>Steam:</b> <a href=\x27" ++ steam_url ++
       "\x27>" ++ steam_price ++ "üîó</a>"]
  match itad_deal with
  | none => .ok base
  | some d => do
    let priceStr ← pyFormatF2 d.price
    let deal_text :=
      if truthy d.url then
        "üî• <b>Best Deal:</b> <a href=\x27" ++
          pyStrOf d.url ++ "\x27><b>$" ++ priceStr ++ "</b> (-" ++
          pyStrOf d.cut ++ "%) at " ++ pyStrOf d.store ++
          "üîó</a>"
      else
        "üî• <b>Best Deal:</b> <b>$" ++ priceStr ++
          "</b> (-" ++ pyStrOf d.cut ++ "%) at " ++ pyStrOf d.store
    pure (base ++ [deal_text])

/-- Environment of one handler invocation: the oracles for every external
request the pipeline can make. -/
structure Env where
  steamDetails : HttpResult
  steamReviews : HttpResult
  itad : ItadEnv
  llm : Option String

/-- Observable outcome of one handler invocation: the network requests
issued, the replies sent through `reply_text`, and the exception escaping to
the framework, if any. -/
structure HandlerOut where
  calls : List NetCall
  replies : List String
  raised : Option PyExc

/-- Truthiness of `player_analysis` (`if not player_analysis`, line 245). -/
def truthyOptStr : Option String → Bool
  | none => false
  | some s => !s.isEmpty

/-- `rating_text` (line 250):
`player_rating.get('review_score_desc', 'No rating found') if player_rating
else 'No rating found'`. -/
def ratingTextOf (player_rating : Option Json) : Except PyExc Json :=
  match player_rating with
  | some j =>
    if truthy j then pyDictGetD j "review_score_desc" (.str "No rating found")
    else .ok (.str "No rating found")
  | none => .ok (.str "No rating found")

/-- `handle_steam_link` (lines 224-280), translated statement by statement.
The handler has no try/except of its own, so any exception raised by a helper
escapes (recorded in `raised`) and no further statement runs.  The guard
`if not game_details:` is Python truthiness, so a falsy details value (for
example an empty object) also yields the failure notice; `game_name` is the
raw JSON value from the details object and is handed as such to the Deal
Resolver. -/
def handle_steam_link (env : Env) (message_text : String) : HandlerOut :=
  match get_steam_app_id message_text with
  | none => ⟨[], [], none⟩
  | some app_id =>
    let t1 : List NetCall := [.steamDetails app_id]
    match get_steam_game_details app_id env.steamDetails with
    | .error e => ⟨t1, [], some e⟩
    | .ok none => ⟨t1, [detailsNotice], none⟩
    | .ok (some game_details) =>
      if truthy game_details = false then ⟨t1, [detailsNotice], none⟩
      else
      match pyDictGetD game_details "name" (.str "Unknown Game") with
      | .error e => ⟨t1, [], some e⟩
      | .ok game_name =>
        let t2 := t1 ++ [.steamReviews app_id]
        match get_steam_player_rating env.steamReviews with
        | .error e => ⟨t2, [], some e⟩
        | .ok player_rating =>
          let t3 := t2 ++ itad_trace env.itad app_id game_name
          match itad_result env.itad game_name with
          | .error e => ⟨t3, [], some e⟩
          | .ok itad_deal =>
            match get_game_genres game_details with
            | .error e => ⟨t3, [], some e⟩
            | .ok game_genre =>
              let (llmCalls, llmRes) :=
                analyze_players_with_llm game_details env.llm
              let t4 := t3 ++ llmCalls
              match llmRes with
              | .error e => ⟨t4, [], some e⟩
              | .ok player_analysis =>
                if !truthyOptStr player_analysis then
                  ⟨t4, [llmNotice], none⟩
                else
                  match format_price game_details with
                  | .error e => ⟨t4, [], some e⟩
                  | .ok steam_priceJ =>
                    match ratingTextOf player_rating with
                    | .error e => ⟨t4, [], some e⟩
                    | .ok rating_textJ =>
                      match rating_textJ with
                      | .str rating_text =>
                        let rating_emoji := get_rating_emoji rating_text
                        match compose_parts (pyStrOf game_name) rating_emoji
                            rating_text game_genre (player_analysis.getD "")
                            (pyStrOf steam_priceJ) app_id itad_deal with
                        | .error e => ⟨t4, [], some e⟩
                        | .ok reply_parts =>
                          ⟨t4, [String.intercalate "\n" reply_parts], none⟩
                      | _ => ⟨t4, [], some .attributeError⟩

/- ## Theorems -/

theorem leadsWith_iff (p l : List Char) :
    leadsWith p l = true ↔ ∃ t, l = p ++ t := by
  induction p generalizing l with
  | nil => simp [leadsWith]
  | cons a as ih =>
    cases l with
    | nil => simp [leadsWith]
    | cons b bs =>
      simp only [leadsWith, Bool.and_eq_true, beq_iff_eq, ih,
        List.cons_append, List.cons.injEq]
      constructor
      · rintro ⟨rfl, t, rfl⟩
        exact ⟨t, rfl, rfl⟩
      · rintro ⟨t, rfl, rfl⟩
        exact ⟨rfl, t, rfl⟩

theorem takeWhile_ne_nil_iff (p : Char → Bool) (t : List Char) :
    (t.takeWhile p ≠ []) ↔ ∃ d t2, t = d :: t2 ∧ p d = true := by
  cases t with
  | nil => simp [List.takeWhile]
  | cons d t2 =>
    rw [List.takeWhile_cons]
    by_cases h : p d = true
    · simp [h]
    · simp [h]

theorem searchAppId_sound (l : List Char) (r : List Char)
    (h : searchAppId l = some r) :
    (∃ pre t, l = pre ++ appPat ++ r ++ t) ∧ r ≠ [] ∧
      r.all pyIsDigit = true := by
  induction l with
  | nil => simp [searchAppId] at h
  | cons c cs ih =>
    rw [searchAppId] at h
    by_cases hat : appAt (c :: cs) = true
    · rw [if_pos hat] at h
      have hr : r = ((c :: cs).drop 5).takeWhile pyIsDigit := by
        have hskip : (c :: cs).drop 5 = cs.drop 4 := rfl
        rw [hskip]
        exact (Option.some.inj h).symm
      rcases (Bool.and_eq_true _ _).mp hat with ⟨hlead, hne⟩
      rcases (leadsWith_iff appPat (c :: cs)).mp hlead with ⟨t0, ht0⟩
      have hdrop : (c :: cs).drop 5 = t0 := by
        rw [ht0]
        exact List.drop_left appPat t0
      rw [hdrop] at hr
      refine ⟨⟨[], t0.dropWhile pyIsDigit, ?_⟩, ?_, ?_⟩
      · rw [ht0, hr, List.nil_append, List.append_assoc,
          List.takeWhile_append_dropWhile]
      · rw [hr]
        intro hnil
        rw [hdrop] at hne
        rw [hnil] at hne
        simp at hne
      · rw [hr, List.all_eq_true]
        intro x hx
        exact List.mem_takeWhile_imp hx
    · rw [if_neg hat] at h
      rcases ih h with ⟨⟨pre, t, hdec⟩, hne, hall⟩
      refine ⟨⟨c :: pre, t, ?_⟩, hne, hall⟩
      rw [hdec]
      simp [List.append_assoc]

theorem searchAppId_complete (pre ds t : List Char)
    (hne : ds ≠ []) (hall : ds.all pyIsDigit = true) :
    searchAppId (pre ++ appPat ++ ds ++ t) ≠ none := by
  induction pre with
  | nil =>
    cases ds with
    | nil => exact absurd rfl hne
    | cons d ds2 =>
      have hd : pyIsDigit d = true := by
        rw [List.all_eq_true] at hall
        exact hall d (List.mem_cons_self d ds2)
      have hshape : [] ++ appPat ++ (d :: ds2) ++ t =
          appPat ++ (d :: (ds2 ++ t)) := by
        simp [List.append_assoc]
      rw [hshape]
      have hat : appAt (appPat ++ (d :: (ds2 ++ t))) = true := by
        rw [appAt, Bool.and_eq_true]
        constructor
        · exact (leadsWith_iff _ _).mpr ⟨d :: (ds2 ++ t), rfl⟩
        · have hdrop : (appPat ++ (d :: (ds2 ++ t))).drop 5 =
              d :: (ds2 ++ t) := List.drop_left appPat _
          rw [hdrop, List.takeWhile_cons, if_pos hd]
          simp
      have hcons : appPat ++ (d :: (ds2 ++ t)) =
          '/' :: ('a' :: 'p' :: 'p' :: '/' :: (d :: (ds2 ++ t))) := rfl
      rw [hcons] at hat ⊢
      rw [searchAppId, if_pos hat]
      simp
  | cons p ps ih =>
    have hshape : (p :: ps) ++ appPat ++ ds ++ t =
        p :: (ps ++ appPat ++ ds ++ t) := by simp
    rw [hshape, searchAppId]
    by_cases hat : appAt (p :: (ps ++ appPat ++ ds ++ t)) = true
    · rw [if_pos hat]
      simp
    · rw [if_neg hat]
      exact ih

/-- Claim C5: the Identifier Extractor `get_steam_app_id` is a pure total
function; it returns `some digits` exactly when the message contains a
segment `/app/<digits>` — digits being Unicode decimal digits, as the regex
class matches — the returned string being a maximal digit run immediately
following an occurrence of `/app/`; and it returns `none` otherwise. -/
theorem c5_app_id_extractor (url : String) :
    (∀ r, get_steam_app_id url = some r →
      (∃ pre t, url.data = pre ++ appPat ++ r.data ++ t) ∧ r.data ≠ [] ∧
        r.data.all pyIsDigit = true) ∧
    (get_steam_app_id url = none →
      ∀ pre ds t, ds ≠ [] → ds.all pyIsDigit = true →
        url.data ≠ pre ++ appPat ++ ds ++ t) := by
  constructor
  · intro r h
    rw [get_steam_app_id] at h
    rcases Option.map_eq_some'.mp h with ⟨l, hl, hmk⟩
    have hdata : r.data = l := by rw [← hmk]
    rw [hdata]
    exact searchAppId_sound url.data l hl
  · intro h pre ds t hne hall heq
    rw [get_steam_app_id, Option.map_eq_none'] at h
    rw [heq] at h
    exact searchAppId_complete pre ds t hne hall h

/-- Witness for C5 at a concrete input. -/
theorem c5_app_id_extractor_witness :
    (∃ pre t, ("https://store.steampowered.com/app/570/" : String).data =
      pre ++ appPat ++ ("570" : String).data ++ t) ∧
      ("570" : String).data ≠ [] ∧
      ("570" : String).data.all pyIsDigit = true :=
  (c5_app_id_extractor "https://store.steampowered.com/app/570/").1 "570" rfl

/-- Counterexample to claim C8 as stated: on a `ProductDetails` dict whose
`price_overview` is present but lacks `final_formatted`, `format_price`
raises `KeyError` instead of returning the unavailable sentinel. -/
theorem c8_format_price_counterexample :
    format_price (.obj [("price_overview", .obj [])]) =
      .error (.keyError "final_formatted") ∧
    format_price (.obj [("price_overview", .obj [])]) ≠
      .ok (.str "Price not available") := by
  constructor
  · rfl
  · intro h
    exact Except.noConfusion h

/-- Claim C8, amended: on dict inputs the free flag wins over any price
field; otherwise a present `price_overview.final_formatted` value is
returned; otherwise, when `price_overview` is absent, the sentinel
`"Price not available"` is returned (when `price_overview` is present but
malformed the function raises, per the counterexample); and the function is
deterministic, so applying it twice yields identical output. -/
theorem c8_format_price_amended :
    (∀ (kvs : List (String × Json)) (v : Json),
      jsonLookup kvs "is_free" = some v → truthy v = true →
      format_price (.obj kvs) = .ok (.str "Free")) ∧
    (∀ (kvs : List (String × Json)) (po v : Json),
      (∀ w, jsonLookup kvs "is_free" = some w → truthy w = false) →
      jsonLookup kvs "price_overview" = some po →
      pyGetItem po "final_formatted" = .ok v →
      format_price (.obj kvs) = .ok v) ∧
    (∀ kvs : List (String × Json),
      (∀ w, jsonLookup kvs "is_free" = some w → truthy w = false) →
      jsonLookup kvs "price_overview" = none →
      format_price (.obj kvs) = .ok (.str "Price not available")) ∧
    (∀ d : Json, format_price d = format_price d) := by
  refine ⟨?_, ?_, ?_, fun d => rfl⟩
  · intro kvs v h1 h2
    simp [format_price, pyDictGetD, bind, Except.bind, pure, Except.pure,
      h1, h2]
  · intro kvs po v hf hpo hv
    cases hif : jsonLookup kvs "is_free" with
    | none =>
      simp [format_price, pyDictGetD, bind, Except.bind, pure, Except.pure,
        hif, truthy, hpo, hv]
    | some w =>
      have hw := hf w hif
      simp [format_price, pyDictGetD, bind, Except.bind, pure, Except.pure,
        hif, hw, hpo, hv]
  · intro kvs hf hpo
    cases hif : jsonLookup kvs "is_free" with
    | none =>
      simp [format_price, pyDictGetD, bind, Except.bind, pure, Except.pure,
        hif, truthy, hpo]
    | some w =>
      have hw := hf w hif
      simp [format_price, pyDictGetD, bind, Except.bind, pure, Except.pure,
        hif, hw, hpo]

/-- Witness for the amended C8 at concrete inputs. -/
theorem c8_format_price_amended_witness :
    format_price (.obj [("is_free", .bool true),
      ("price_overview", .obj [])]) = .ok (.str "Free") ∧
    format_price (.obj [("price_overview",
      .obj [("final_formatted", .str "$9.99")])]) = .ok (.str "$9.99") ∧
    format_price (.obj [("name", .str "Dota 2")]) =
      .ok (.str "Price not available") :=
  ⟨c8_format_price_amended.1 [("is_free", .bool true),
      ("price_overview", .obj [])] (.bool true) rfl rfl,
   c8_format_price_amended.2.1
      [("price_overview", .obj [("final_formatted", .str "$9.99")])]
      (.obj [("final_formatted", .str "$9.99")]) (.str "$9.99")
      (fun _ hw => Option.noConfusion hw) rfl rfl,
   c8_format_price_amended.2.2.1 [("name", .str "Dota 2")]
      (fun _ hw => Option.noConfusion hw) rfl⟩

/-- Counterexample to claim C10 as stated: the string
`"positive mostly negative"` contains `"mostly negative"` yet maps to the
positive (green) symbol, because the positive keyword scan runs first and
the bare keyword `"positive"` occurs as a substring. -/
theorem c10_rating_emoji_counterexample :
    get_rating_emoji "positive mostly negative" = emojiGreen ∧
    emojiGreen ≠ emojiYellow := by
  constructor
  · rfl
  · intro h
    exact absurd h (by decide)

/-- Claim C10, amended: the rating-to-symbol mapping is total (every string
maps to one of the four fixed symbols, so it never raises); a string that
contains `"mostly negative"` and none of the positive keywords maps to the
mixed (yellow) symbol, not the negative one; and a string containing none of
the keywords maps to the default symbol. -/
theorem c10_rating_emoji_amended :
    (∀ s : String, get_rating_emoji s = emojiGreen ∨
      get_rating_emoji s = emojiYellow ∨ get_rating_emoji s = emojiRed ∨
      get_rating_emoji s = emojiWhite) ∧
    (∀ s : String, (∀ w ∈ positiveWords, strIn w (pyLower s) = false) →
      strIn "mostly negative" (pyLower s) = true →
      get_rating_emoji s = emojiYellow) ∧
    (∀ s : String,
      (∀ w ∈ positiveWords ++ mixedWords ++ negativeWords,
        strIn w (pyLower s) = false) →
      get_rating_emoji s = emojiWhite) := by
  refine ⟨?_, ?_, ?_⟩
  · intro s
    rw [get_rating_emoji]
    by_cases h1 : positiveWords.any (fun w => strIn w (pyLower s)) = true
    · rw [if_pos h1]
      exact Or.inl rfl
    · rw [if_neg h1]
      by_cases h2 : mixedWords.any (fun w => strIn w (pyLower s)) = true
      · rw [if_pos h2]
        exact Or.inr (Or.inl rfl)
      · rw [if_neg h2]
        by_cases h3 : negativeWords.any (fun w => strIn w (pyLower s)) = true
        · rw [if_pos h3]
          exact Or.inr (Or.inr (Or.inl rfl))
        · rw [if_neg h3]
          exact Or.inr (Or.inr (Or.inr rfl))
  · intro s hpos hmn
    have h1 : positiveWords.any (fun w => strIn w (pyLower s)) = false := by
      rw [List.any_eq_false]
      intro w hw
      simp [hpos w hw]
    have h2 : mixedWords.any (fun w => strIn w (pyLower s)) = true := by
      rw [List.any_eq_true]
      exact ⟨"mostly negative", by simp [mixedWords], hmn⟩
    rw [get_rating_emoji, h1]
    simp [h2]
  · intro s hall
    have h1 : positiveWords.any (fun w => strIn w (pyLower s)) = false := by
      rw [List.any_eq_false]
      intro w hw
      simp [hall w (by simp [hw])]
    have h2 : mixedWords.any (fun w => strIn w (pyLower s)) = false := by
      rw [List.any_eq_false]
      intro w hw
      simp [hall w (by simp [hw])]
    have h3 : negativeWords.any (fun w => strIn w (pyLower s)) = false := by
      rw [List.any_eq_false]
      intro w hw
      simp [hall w (by simp [hw])]
    rw [get_rating_emoji, h1, h2, h3]
    simp

/-- Witness for the amended C10 at concrete inputs. -/
theorem c10_rating_emoji_amended_witness :
    get_rating_emoji "Mostly Negative" = emojiYellow ∧
    get_rating_emoji "7 user reviews" = emojiWhite :=
  ⟨c10_rating_emoji_amended.2.1 "Mostly Negative" (by decide) (by decide),
   c10_rating_emoji_amended.2.2 "7 user reviews" (by decide)⟩

/-- A Steam details object with the four fields the Insight Extractor
reads. -/
def detailsObj (name desc sdesc : String) (cats : List String) : Json :=
  .obj [("name", .str name),
        ("detailed_description", .str desc),
        ("short_description", .str sdesc),
        ("categories",
          .arr (cats.map (fun c => .obj [("description", .str c)])))]

theorem mapM_descr (l : List String) :
    exList (fun c => pyGetItem c "description")
      (l.map (fun c => Json.obj [("description", Json.str c)])) =
      .ok (l.map Json.str) := by
  induction l with
  | nil => rfl
  | cons c cs ih =>
    have h1 : pyGetItem (Json.obj [("description", Json.str c)])
        "description" = .ok (.str c) := rfl
    simp only [List.map_cons, exList, bind, Except.bind, pure, Except.pure]
    rw [h1, ih]

theorem catDescs_detailsObj (n d s : String) (cs : List String) :
    catDescs (detailsObj n d s cs) = .ok (cs.map Json.str) := by
  rw [catDescs]
  simp only [detailsObj, pyDictGetD, jsonLookup, List.foldl, pyIter]
  simp [bind, Except.bind, pure, Except.pure, mapM_descr cs]

theorem promptOf_detailsObj (n d s : String) (cs : List String) :
    promptOf (detailsObj n d s cs) =
      .ok (promptText n ("[" ++ pyReprList (cs.map Json.str) ++ "]")
        (pyTake 500 d) s) := by
  rw [promptOf]
  rw [catDescs_detailsObj]
  simp only [detailsObj, pyDictGetD, jsonLookup, List.foldl, pySlice,
    pyStrOf]
  simp [bind, Except.bind, pure, Except.pure]

theorem pyTake_idem (n : Nat) (s : String) :
    pyTake n (pyTake n s) = pyTake n s := by
  simp [pyTake, List.take_take]

/-- Claim C7: on every invocation the Insight Extractor submits a prompt
that contains the long-form description only through its 500-code-point
prefix, always contains the total-player normalization instruction
(`"play with X friends" (add 1 for the host)`), and returns the completion
response verbatim (stripped) — it does no numeric parsing of its own. -/
theorem c7_insight_prompt (name desc sdesc : String) (cats : List String)
    (llm : Option String) :
    (∃ a b, promptOf (detailsObj name desc sdesc cats) =
      .ok (a ++ normInstr ++ b)) ∧
    promptOf (detailsObj name desc sdesc cats) =
      promptOf (detailsObj name (pyTake 500 desc) sdesc cats) ∧
    analyze_players_with_llm (detailsObj name desc sdesc cats) llm =
      ([.llmCompletion], .ok (llm.map pyStrip)) := by
  refine ⟨?_, ?_, ?_⟩
  · refine ⟨promptHead ++ name ++ promptSegCategories ++
      ("[" ++ pyReprList (cats.map Json.str) ++ "]") ++
      promptSegDescription ++ pyTake 500 desc ++
      promptSegShortDescription ++ sdesc ++ promptTailA, promptTailB, ?_⟩
    rw [promptOf_detailsObj]
    rfl
  · rw [promptOf_detailsObj, promptOf_detailsObj, pyTake_idem]
  · rw [analyze_players_with_llm, promptOf_detailsObj]

/-- Claim C9: a message without a `/app/<digits>` pattern makes the handler
return immediately: no reply is sent, no network request of any kind is
issued, and nothing is raised. -/
theorem c9_no_pattern_no_effect (env : Env) (msg : String)
    (h : get_steam_app_id msg = none) :
    handle_steam_link env msg = ⟨[], [], none⟩ := by
  simp only [handle_steam_link, h]

/-- Witness for C9 at a concrete input. -/
theorem c9_no_pattern_no_effect_witness :
    handle_steam_link
      ⟨.transportError, .transportError,
       ⟨.transportError, .transportError, .transportError⟩, none⟩
      "hello there, no link here" = ⟨[], [], none⟩ :=
  c9_no_pattern_no_effect
    ⟨.transportError, .transportError,
     ⟨.transportError, .transportError, .transportError⟩, none⟩
    "hello there, no link here" rfl

